import Mathlib

/-!
Verification of the GEMINI-Trader backend (simulation-mode broker ledger,
agent adapter, control-loop policy, WebSocket fan-out) against its
natural-language specification.

Prices and money amounts are modelled as rationals (the Python code uses
floats); random draws (`random.uniform`, `random.gauss`, `random.randint`)
and wall-clock reads (`time.time()`) are passed in explicitly as parameters,
so every Python function becomes a pure Lean function of its inputs and the
bridge state.
-/

namespace GeminiTrader

/-- Rounding to two decimal places, modelling Python's `round(x, 2)`.
(Python rounds ties to even, this model rounds ties up; the properties
proved below depend only on `round2` being the identity on its image,
which holds for either tie rule.) -/
def round2 (q : ℚ) : ℚ := (round (q * 100) : ℚ) / 100

/-- A bid/ask tick, as produced by `MT5Bridge.get_tick`. -/
structure Tick where
  bid : ℚ
  ask : ℚ
  time : ℤ
  symbol : String
deriving Repr, DecidableEq

/-- A simulated position dict, as stored in `MT5Bridge._sim_positions`. -/
structure SimPosition where
  ticket : ℤ
  symbol : String
  type : String
  volume : ℚ
  price_open : ℚ
  price_current : ℚ
  sl : ℚ
  tp : ℚ
  profit : ℚ
  time : ℤ
deriving Repr, DecidableEq

/-- The simulation-mode state of `MT5Bridge` (its `__init__` fields;
the Python names carry a leading underscore: `_sim_base_price`,
`_sim_positions`, `_sim_ticket_counter`). -/
structure MT5Bridge where
  connected : Bool
  simulation_mode : Bool
  symbol : String
  sim_base_price : ℚ
  sim_positions : List SimPosition
  sim_ticket_counter : ℤ
deriving Repr, DecidableEq

/-- `MT5Bridge.__init__` with `MT5_AVAILABLE = False` (simulation mode) and
`TRADING_SYMBOL` defaulting to `"XAUUSDm"`. -/
def bridgeInit0 : MT5Bridge :=
  { connected := false
    simulation_mode := true
    symbol := "XAUUSDm"
    sim_base_price := 2650
    sim_positions := []
    sim_ticket_counter := 1000 }

/-- The random draws and clock read consumed by one simulated
`get_tick` call: `price = base + uniform(-5, 5)` and
`spread = uniform(0.1, 0.5)`. -/
structure Env where
  priceNoise : ℚ
  spreadNoise : ℚ
  now : ℤ
deriving Repr, DecidableEq

/-- `MT5Bridge.get_tick`, simulation branch: bid and ask are the noisy
base price rounded to two decimals. -/
def get_tick (st : MT5Bridge) (env : Env) : Tick :=
  let price := st.sim_base_price + env.priceNoise
  { bid := round2 price
    ask := round2 (price + env.spreadNoise)
    time := env.now
    symbol := st.symbol }

/-- The per-position mark-to-market update performed inside
`MT5Bridge.get_positions` (simulation branch): `price_current` is set to the
tick's bid (buy) or ask (sell) and `profit` to the rounded price move times
`volume * 100`. -/
def markPosition (tick : Tick) (p : SimPosition) : SimPosition :=
  if p.type = "buy" then
    { p with price_current := tick.bid
             profit := round2 ((tick.bid - p.price_open) * p.volume * 100) }
  else
    { p with price_current := tick.ask
             profit := round2 ((p.price_open - tick.ask) * p.volume * 100) }

/-- `MT5Bridge.get_positions`, simulation branch: fetch one tick, mark every
stored position to it in place, and return the marked list. -/
def get_positions (st : MT5Bridge) (env : Env) : MT5Bridge × List SimPosition :=
  let tick := get_tick st env
  let ps := st.sim_positions.map (markPosition tick)
  ({ st with sim_positions := ps }, ps)

/-- Result dict of `MT5Bridge.place_order`. -/
inductive OrderResult where
  | success (ticket : ℤ) (price : ℚ) (action : String)
  | failure (message : String)
deriving Repr, DecidableEq

def OrderResult.isSuccess : OrderResult → Bool
  | .success _ _ _ => true
  | .failure _ => false

/-- The position dict appended by `MT5Bridge.place_order` (simulation
branch): filled at the tick's ask (buy) or bid (sell), `profit` initialised
to `0.0`, `sl` and `tp` stored exactly as passed. -/
def newSimPosition (st : MT5Bridge) (env : Env) (action : String)
    (volume sl tp : ℚ) : SimPosition :=
  let tick := get_tick st env
  let price := if action.toLower = "buy" then tick.ask else tick.bid
  { ticket := st.sim_ticket_counter + 1
    symbol := st.symbol
    type := action.toLower
    volume := volume
    price_open := price
    price_current := price
    sl := sl
    tp := tp
    profit := 0
    time := env.now }

/-- `MT5Bridge.place_order`, simulation branch. `force` is
`os.getenv("FORCE_MT5_DATA", "false").lower() == "true"`. -/
def place_order (st : MT5Bridge) (force : Bool) (env : Env) (action : String)
    (volume sl tp : ℚ) : MT5Bridge × OrderResult :=
  if force then
    (st, .failure "Cannot place mock order in STRICT MT5 mode.")
  else
    let pos := newSimPosition st env action volume sl tp
    ({ st with sim_positions := st.sim_positions ++ [pos]
               sim_ticket_counter := st.sim_ticket_counter + 1 },
     .success pos.ticket pos.price_open action)

/-- Result dict of `MT5Bridge.close_position`. -/
inductive CloseResult where
  | success (ticket : ℤ) (profit : ℚ)
  | failure (message : String)
deriving Repr, DecidableEq

/-- Remove the first position whose ticket matches, returning it and the
remaining list (the `for i, p in enumerate(...)` / `pop(i)` idiom). -/
def popTicket : List SimPosition → ℤ → Option (SimPosition × List SimPosition)
  | [], _ => none
  | p :: rest, t =>
    if p.ticket = t then some (p, rest)
    else
      match popTicket rest t with
      | some (q, rest2) => some (q, p :: rest2)
      | none => none

/-- `MT5Bridge.close_position`, simulation branch: pops the first matching
position and returns its stored `profit` field. -/
def close_position (st : MT5Bridge) (ticket : ℤ) : MT5Bridge × CloseResult :=
  match popTicket st.sim_positions ticket with
  | some (p, rest) =>
      ({ st with sim_positions := rest }, .success ticket p.profit)
  | none =>
      (st, .failure ("Position " ++ toString ticket ++ " not found"))

/-- The account-info dict of `MT5Bridge.get_account_info`, simulation
branch. -/
structure AccountInfo where
  login : ℤ
  balance : ℚ
  equity : ℚ
  margin : ℚ
  free_margin : ℚ
  margin_level : ℚ
  profit : ℚ
  server : String
  currency : String
  trade_mode : String
deriving Repr, DecidableEq

/-- `MT5Bridge.get_account_info`, simulation branch: balance is the literal
`10000.00`; equity/margin/profit are derived from the stored positions.
`accountMode` is `os.getenv("ACCOUNT_MODE", "demo")`. -/
def get_account_info (st : MT5Bridge) (accountMode : String) : AccountInfo :=
  { login := 12345678
    balance := 10000
    equity := 10000 + (st.sim_positions.map (·.profit)).sum
    margin := (st.sim_positions.map (fun p => p.volume * 1000)).sum
    free_margin := 10000 - (st.sim_positions.map (fun p => p.volume * 1000)).sum
    margin_level := 0
    profit := (st.sim_positions.map (·.profit)).sum
    server := "SimulationServer"
    currency := "USD"
    trade_mode := accountMode }

/-- A candle dict produced by `MT5Bridge._simulate_candles`. -/
structure Candle where
  time : ℤ
  «open» : ℚ
  high : ℚ
  low : ℚ
  close : ℚ
  volume : ℤ
deriving Repr, DecidableEq

/-- The `tf_minutes` lookup inside `_simulate_candles` (default 5). -/
def tf_minutes (timeframe : String) : ℤ :=
  if timeframe = "M1" then 1
  else if timeframe = "M5" then 5
  else if timeframe = "M15" then 15
  else if timeframe = "M30" then 30
  else if timeframe = "H1" then 60
  else if timeframe = "H4" then 240
  else if timeframe = "D1" then 1440
  else 5

/-- The per-iteration random draws of `_simulate_candles`:
`change = gauss(0, 2.5)`, the two wick draws `gauss(0, 1.5)` (the code
takes their absolute value), and `randint(50, 500)` for volume. -/
structure CandleNoise where
  change : ℕ → ℚ
  hiNoise : ℕ → ℚ
  loNoise : ℕ → ℚ
  vol : ℕ → ℤ

/-- The `for i in range(count)` loop body of `_simulate_candles`:
`i` is the loop index, `rem` the iterations left, `price` the running
walk price. Returns the candles produced and the final running price
(the value `_sim_base_price` holds after the loop). -/
def simLoop (noise : CandleNoise) (now tf : ℤ) (count : ℕ) :
    ℕ → ℕ → ℚ → List Candle × ℚ
  | _, 0, price => ([], price)
  | i, rem + 1, price =>
    let t := now - ((count : ℤ) - (i : ℤ)) * tf * 60
    let o := round2 price
    let c := round2 (price + noise.change i)
    let h := round2 (max o c + |noise.hiNoise i|)
    let lo := round2 (min o c - |noise.loNoise i|)
    let rest := simLoop noise now tf count (i + 1) rem c
    (⟨t, o, h, lo, c, noise.vol i⟩ :: rest.1, rest.2)

/-- `MT5Bridge._simulate_candles`: runs the walk from the stored
`_sim_base_price` and persists the final close back into the bridge
state. -/
def simulate_candles (st : MT5Bridge) (noise : CandleNoise) (now : ℤ)
    (count : ℕ) (timeframe : String) : MT5Bridge × List Candle :=
  let r := simLoop noise now (tf_minutes timeframe) count 0 count st.sim_base_price
  ({ st with sim_base_price := r.2 }, r.1)

/-- The decision dict returned by `TradingAgent.analyze` (after the
`setdefault` fill-in every key is present; `none` models JSON `null`). -/
structure Decision where
  action : String
  reasoning : String
  confidence : ℚ
  sl : Option ℚ
  tp : Option ℚ
  volume : Option ℚ
deriving Repr, DecidableEq

/-- The raw `json.loads` result inside `analyze` before `setdefault`:
an outer `none` models a missing key, an inner `none` a JSON `null`. -/
structure RawDecision where
  action : Option String
  reasoning : Option String
  confidence : Option ℚ
  sl : Option (Option ℚ)
  tp : Option (Option ℚ)
  volume : Option (Option ℚ)

/-- Outcome of the oracle round-trip inside `analyze`'s `try` block:
`exn` models any exception raised by `generate_content` (including a
timeout surfaced by the SDK) or elsewhere in the block, `jsonError`
models `json.JSONDecodeError` (with the raw response text), `ok` a
successfully parsed payload. -/
inductive OracleOutcome where
  | exn (msg : String)
  | jsonError (msg : String) (raw : String)
  | ok (raw : RawDecision)

/-- `TradingAgent.analyze`: the no-client early return, the `setdefault`
normalisation on a parsed payload, and the two `except` handlers, each of
which returns a well-formed default decision instead of re-raising.
`clientOk` is whether `self.client` was initialised; `dv` is
`float(os.getenv("DEFAULT_VOLUME", "0.01"))`. -/
def analyze (clientOk : Bool) (dv : ℚ) (outcome : OracleOutcome) : Decision :=
  if !clientOk then
    { action := "DO_NOTHING"
      reasoning := "Gemini API client not initialized (check keys)"
      confidence := 0, sl := none, tp := none, volume := none }
  else
    match outcome with
    | .exn msg =>
        { action := "DO_NOTHING"
          reasoning := "Agent error: " ++ msg
          confidence := 0, sl := none, tp := none, volume := none }
    | .jsonError msg raw =>
        { action := "DO_NOTHING"
          reasoning := "Failed to parse agent response: " ++ msg
            ++ ". Raw: " ++ raw.take 200
          confidence := 0, sl := none, tp := none, volume := none }
    | .ok raw =>
        { action := raw.action.getD "DO_NOTHING"
          reasoning := raw.reasoning.getD "No reasoning provided"
          confidence := raw.confidence.getD (1 / 2)
          sl := raw.sl.getD none
          tp := raw.tp.getD none
          volume := raw.volume.getD (some dv) }

/-- A ledger mutation issued by one agent cycle. -/
inductive LedgerMutation where
  | placeOrder (action : String) (volume sl tp : Option ℚ)
  | closeTicket (ticket : ℤ)
deriving Repr, DecidableEq

/-- The decision-execution policy of `run_agent_cycle` (main.py, step 3):
BUY/SELL place one order only when `confidence >= 0.7`; CLOSE closes every
fetched position; every other action issues no ledger mutation. -/
def cycleMutations (decision : Decision) (positions : List SimPosition) :
    List LedgerMutation :=
  if decision.action = "BUY" ∨ decision.action = "SELL" then
    if decision.confidence ≥ 7 / 10 then
      [.placeOrder decision.action decision.volume decision.sl decision.tp]
    else []
  else if decision.action = "CLOSE" then
    positions.map (fun p => .closeTicket p.ticket)
  else []

/-- The send loop of `ConnectionManager.broadcast`: walks the registered
connections in order, collecting successful deliveries and the connections
whose `send_text` raised (each send is wrapped in `try/except`, so nothing
propagates). Returns `(delivered, disconnected)`. -/
def broadcastSends {α : Type} (fails : α → Bool) : List α → List α × List α
  | [] => ([], [])
  | c :: rest =>
    let r := broadcastSends fails rest
    if fails c then (r.1, c :: r.2) else (c :: r.1, r.2)

/-- `ConnectionManager.disconnect`: `if websocket in active: remove` —
removes the first occurrence, a no-op when absent. -/
def disconnectConn {α : Type} [DecidableEq α] (active : List α) (c : α) :
    List α := active.erase c

/-- `ConnectionManager.broadcast`: send to every registered connection,
then deregister each connection whose send failed. Returns the new
registry and the list of connections that received the message. -/
def broadcast {α : Type} [DecidableEq α] (active : List α)
    (fails : α → Bool) : List α × List α :=
  let r := broadcastSends fails active
  (r.2.foldl disconnectConn active, r.1)

/-- Python's `str.lower()` for ASCII strings (the only ones the flag
comparison ever sees), mapped over the characters. -/
def pyLower (s : String) : String := ⟨s.data.map Char.toLower⟩

/-- `os.getenv("FORCE_MT5_DATA", "false").lower() == "true"` — the
strict-mode flag as parsed everywhere in the code. -/
def strictMode (v : String) : Bool := pyLower v == "true"

/-- Result dict of `MT5Bridge.initialize`. -/
structure InitResult where
  success : Bool
  message : String
  mode : Option String
deriving Repr, DecidableEq

/-- `MT5Bridge.initialize` (the docstring calls it connecting to the MT5
terminal). In simulation mode strict mode yields a failure dict, otherwise
the bridge connects in simulation. In live mode `liveInitOk` models
`mt5.initialize(...)` succeeding, `loginNeeded`/`loginOk` the optional
`mt5.login` call, `acctDemo` the account's `trade_mode == 0`. -/
def bridgeConnect (st : MT5Bridge) (forceEnv : String) (liveInitOk : Bool)
    (liveErr : String) (loginNeeded loginOk : Bool) (acctDemo : Bool)
    (acctLogin : ℤ) : MT5Bridge × InitResult :=
  if st.simulation_mode then
    if strictMode forceEnv then
      (st, { success := false
             message := "CRITICAL: MT5 not available but FORCE_MT5_DATA is true. Exiting."
             mode := none })
    else
      ({ st with connected := true },
       { success := true
         message := "Running in SIMULATION mode (MT5 not available)"
         mode := some "simulation" })
  else
    if !liveInitOk then
      if strictMode forceEnv then
        (st, { success := false, message := "CRITICAL: MT5 init failed: " ++ liveErr, mode := none })
      else
        (st, { success := false, message := "MT5 init failed: " ++ liveErr, mode := none })
    else if loginNeeded && !loginOk then
      (st, { success := false, message := "MT5 login failed: " ++ liveErr, mode := none })
    else
      let mode := if acctDemo then "demo" else "live"
      ({ st with connected := true },
       { success := true
         message := "Connected to MT5 (" ++ mode ++ ") — Account #" ++ toString acctLogin
         mode := some mode })

/-- The startup part of `lifespan` (main.py): after `initialize`, a
non-success result raises `RuntimeError` when strict mode is set and is
merely logged otherwise. -/
def lifespanStartup (res : InitResult) (forceEnv : String) :
    Except String Unit :=
  if res.success then .ok ()
  else if strictMode forceEnv then
    .error ("STRICT MODE: Failed to connect to MT5. " ++ res.message)
  else .ok ()

def exceptOk : Except String Unit → Bool
  | .ok _ => true
  | .error _ => false

/-- One ledger-touching operation of the simulated bridge, for stating
frame properties over arbitrary operation sequences. -/
inductive SimOp where
  | openOp (env : Env) (action : String) (volume sl tp : ℚ)
  | closeOp (ticket : ℤ)
  | queryPositions (env : Env)

/-- Apply one operation to the bridge state (dropping the returned
result). -/
def applyOp (force : Bool) (st : MT5Bridge) : SimOp → MT5Bridge
  | .openOp env a v s t => (place_order st force env a v s t).1
  | .closeOp t => (close_position st t).1
  | .queryPositions env => (get_positions st env).1

/-- Apply a sequence of operations left to right. -/
def applyOps (force : Bool) (st : MT5Bridge) (ops : List SimOp) : MT5Bridge :=
  ops.foldl (applyOp force) st

/-! ### Helper lemmas -/

/-- `round2` is the identity on its image. -/
lemma round2_idem (q : ℚ) : round2 (round2 q) = round2 q := by
  unfold round2
  rw [div_mul_cancel₀ _ (by norm_num : (100 : ℚ) ≠ 0), round_intCast]

lemma markPosition_idem (t : Tick) (p : SimPosition) :
    markPosition t (markPosition t p) = markPosition t p := by
  unfold markPosition
  by_cases h : p.type = "buy" <;> simp [h]

lemma get_positions_preserves_tick (st : MT5Bridge) (env env' : Env) :
    get_tick (get_positions st env').1 env = get_tick st env := by
  simp [get_positions, get_tick]

/-- A repeated `get_positions` with the same random draws is a no-op on
both the returned list and the bridge state. -/
lemma get_positions_twice (st : MT5Bridge) (env : Env) :
    get_positions (get_positions st env).1 env = get_positions st env := by
  have htick := get_positions_preserves_tick st env env
  have hmap : ∀ l : List SimPosition,
      l.map (markPosition (get_tick st env) ∘ markPosition (get_tick st env))
        = l.map (markPosition (get_tick st env)) :=
    fun l => List.map_congr_left fun a _ => markPosition_idem _ a
  simp only [get_positions] at htick ⊢
  rw [htick, List.map_map, hmap]

/-! ### Claims -/

/-- C1, counterexample: with the one-position policy as the spec states
it (the configured maximum being one), a second `place_order` on the same
instrument while a position is already open should be rejected; instead
both calls succeed and the simulated ledger holds two concurrent
positions on the instrument. -/
theorem C1_counterexample :
    (place_order bridgeInit0 false ⟨0, 0, 100⟩ "buy" (1 / 100) 0 0).2.isSuccess = true ∧
    (place_order (place_order bridgeInit0 false ⟨0, 0, 100⟩ "buy" (1 / 100) 0 0).1
        false ⟨0, 0, 100⟩ "buy" (1 / 100) 0 0).2.isSuccess = true ∧
    (place_order (place_order bridgeInit0 false ⟨0, 0, 100⟩ "buy" (1 / 100) 0 0).1
        false ⟨0, 0, 100⟩ "buy" (1 / 100) 0 0).1.sim_positions.length = 2 ∧
    (place_order (place_order bridgeInit0 false ⟨0, 0, 100⟩ "buy" (1 / 100) 0 0).1
        false ⟨0, 0, 100⟩ "buy" (1 / 100) 0 0).1.sim_positions.map SimPosition.symbol
      = ["XAUUSDm", "XAUUSDm"] := by
  refine ⟨rfl, rfl, ?_, ?_⟩ <;>
    simp [place_order, newSimPosition, get_tick, bridgeInit0]

/-- C1, amended: the simulated `place_order` enforces no position-count
policy at all — whenever strict mode is off it succeeds and appends one
new position regardless of what is already open, so the ledger can hold
arbitrarily many concurrent positions on the instrument (the one-position
rule exists only as advisory text in the oracle prompt). -/
theorem C1_amended (st : MT5Bridge) (env : Env) (action : String)
    (volume sl tp : ℚ) :
    (place_order st false env action volume sl tp).2.isSuccess = true ∧
    (place_order st false env action volume sl tp).1.sim_positions
      = st.sim_positions ++ [newSimPosition st env action volume sl tp] := by
  simp [place_order, OrderResult.isSuccess]

/-- C2: the agent cycle of `run_agent_cycle` issues no ledger mutation
for a BUY or SELL decision whose confidence is strictly below the 0.7
threshold. -/
theorem C2_no_trade_below_threshold (d : Decision) (ps : List SimPosition)
    (hact : d.action = "BUY" ∨ d.action = "SELL")
    (hconf : d.confidence < 7 / 10) :
    cycleMutations d ps = [] := by
  unfold cycleMutations
  rw [if_pos hact, if_neg (not_le.mpr hconf)]

theorem C2_witness :
    ((({ action := "BUY", reasoning := "r", confidence := 1 / 2,
         sl := none, tp := none, volume := none } : Decision).action = "BUY" ∨
      (({ action := "BUY", reasoning := "r", confidence := 1 / 2,
          sl := none, tp := none, volume := none } : Decision).action = "SELL")) ∧
     ({ action := "BUY", reasoning := "r", confidence := 1 / 2,
        sl := none, tp := none, volume := none } : Decision).confidence < 7 / 10) ∧
    cycleMutations
      { action := "BUY", reasoning := "r", confidence := 1 / 2,
        sl := none, tp := none, volume := none } [] = [] :=
  ⟨⟨Or.inl rfl, by norm_num⟩,
   C2_no_trade_below_threshold _ [] (Or.inl rfl) (by norm_num)⟩

/-- C3, counterexample: a buy position opened at 2650 with volume 1 is
marked to a tick with bid 2655 (stored profit 500); a newer tick with
bid 2660 then exists, against which the mark-to-market profit would be
1000, yet `close_position` returns the stale stored figure 500. -/
theorem C3_counterexample :
    (close_position
        (get_positions
          { bridgeInit0 with
              sim_positions := [⟨1001, "XAUUSDm", "buy", 1, 2650, 2650, 0, 0, 0, 0⟩] }
          ⟨5, 0, 10⟩).1 1001).2 = .success 1001 500 ∧
    (markPosition
        (get_tick
          (get_positions
            { bridgeInit0 with
                sim_positions := [⟨1001, "XAUUSDm", "buy", 1, 2650, 2650, 0, 0, 0, 0⟩] }
            ⟨5, 0, 10⟩).1 ⟨10, 0, 20⟩)
        (markPosition
          (get_tick
            { bridgeInit0 with
                sim_positions := [⟨1001, "XAUUSDm", "buy", 1, 2650, 2650, 0, 0, 0, 0⟩] }
            ⟨5, 0, 10⟩)
          ⟨1001, "XAUUSDm", "buy", 1, 2650, 2650, 0, 0, 0, 0⟩)).profit = 1000 ∧
    (500 : ℚ) ≠ 1000 := by
  refine ⟨?_, ?_, by norm_num⟩ <;>
    norm_num [close_position, popTicket, get_positions, markPosition,
      get_tick, round2, bridgeInit0]

/-- C3, amended: `close_position` removes the first position matching the
ticket and returns that position's stored `profit` field — the value set
at open (0.0) or by the most recent `get_positions` mark-to-market — and
consults no tick of its own, so the returned figure is stale whenever a
newer tick exists. -/
theorem C3_amended (st : MT5Bridge) (ticket : ℤ) (p : SimPosition)
    (rest : List SimPosition)
    (h : popTicket st.sim_positions ticket = some (p, rest)) :
    close_position st ticket
      = ({ st with sim_positions := rest }, .success ticket p.profit) := by
  simp [close_position, h]

theorem C3_amended_witness :
    popTicket [(⟨1001, "XAUUSDm", "buy", 1, 2650, 2650, 0, 0, 0, 0⟩ : SimPosition)]
        1001
      = some (⟨1001, "XAUUSDm", "buy", 1, 2650, 2650, 0, 0, 0, 0⟩, []) ∧
    close_position
        { bridgeInit0 with
            sim_positions := [⟨1001, "XAUUSDm", "buy", 1, 2650, 2650, 0, 0, 0, 0⟩] }
        1001
      = ({ bridgeInit0 with sim_positions := ([] : List SimPosition) },
         .success 1001 0) :=
  ⟨rfl,
   C3_amended
     { bridgeInit0 with
         sim_positions := [⟨1001, "XAUUSDm", "buy", 1, 2650, 2650, 0, 0, 0, 0⟩] }
     1001 ⟨1001, "XAUUSDm", "buy", 1, 2650, 2650, 0, 0, 0, 0⟩ [] rfl⟩

/-- C4: every failure of the oracle round-trip inside
`TradingAgent.analyze` — an exception (including an SDK timeout) or an
unparseable payload — yields the well-formed default decision with the
no-op action (the code's `DO_NOTHING`, which the spec names `NO_ACTION`),
confidence 0.0 and a failure description; the `except` handlers return it
instead of re-raising, so no failure reaches the control loop. -/
theorem C4_default_on_failure (dv : ℚ) (msg raw : String) :
    analyze true dv (.exn msg)
      = { action := "DO_NOTHING", reasoning := "Agent error: " ++ msg,
          confidence := 0, sl := none, tp := none, volume := none } ∧
    analyze true dv (.jsonError msg raw)
      = { action := "DO_NOTHING",
          reasoning := "Failed to parse agent response: " ++ msg
            ++ ". Raw: " ++ raw.take 200,
          confidence := 0, sl := none, tp := none, volume := none } :=
  ⟨rfl, rfl⟩

/-- C5, counterexample: a `place_order` whose stop-loss sits only 0.01
from the 2650 entry and whose take-profit distance (0.01) is below 1.5
times the stop-loss distance is accepted, and both values are stored
exactly as supplied — neither clamped nor rejected. -/
theorem C5_counterexample :
    (place_order bridgeInit0 false ⟨0, 0, 0⟩ "buy" (1 / 100)
        (2650 - 1 / 100) (2650 + 1 / 100)).2.isSuccess = true ∧
    (place_order bridgeInit0 false ⟨0, 0, 0⟩ "buy" (1 / 100)
        (2650 - 1 / 100) (2650 + 1 / 100)).1.sim_positions.map
        (fun p => (p.price_open, p.sl, p.tp))
      = [(2650, 2650 - 1 / 100, 2650 + 1 / 100)] ∧
    ((2650 + 1 / 100 : ℚ) - 2650) < (3 / 2) * (2650 - (2650 - 1 / 100)) := by
  refine ⟨rfl, ?_, by norm_num⟩
  norm_num [place_order, newSimPosition, get_tick, bridgeInit0, round2]

/-- C5, amended: `place_order` applies no stop-distance or risk-reward
validation at all — the supplied `sl` and `tp` are stored unchanged on the
accepted position (the minimum-stop and 1.5× take-profit rules exist only
as advisory text in the oracle prompt, as §9 of the spec itself notes). -/
theorem C5_amended (st : MT5Bridge) (env : Env) (action : String)
    (volume sl tp : ℚ) :
    (place_order st false env action volume sl tp).2.isSuccess = true ∧
    ∃ p, (place_order st false env action volume sl tp).1.sim_positions
          = st.sim_positions ++ [p] ∧ p.sl = sl ∧ p.tp = tp := by
  refine ⟨by simp [place_order, OrderResult.isSuccess],
    newSimPosition st env action volume sl tp, by simp [place_order], rfl, rfl⟩

/-- C7: the mark-to-market recomputation is idempotent and pure in
(position, tick): remarking an already-marked position with the same tick
changes nothing, and a repeated `get_positions` with the same random draws
(hence the same tick) returns the same list and state. -/
theorem C7_mark_idempotent (t : Tick) (p : SimPosition) (st : MT5Bridge)
    (env : Env) :
    markPosition t (markPosition t p) = markPosition t p ∧
    (get_positions (get_positions st env).1 env).2
      = (get_positions st env).2 ∧
    (get_positions (get_positions st env).1 env).1
      = (get_positions st env).1 :=
  ⟨markPosition_idem t p,
   congrArg Prod.snd (get_positions_twice st env),
   congrArg Prod.fst (get_positions_twice st env)⟩

/-- C10: in simulation mode the reported account balance is the literal
10000.00 in every state — no sequence of open/close/query operations from
the initial bridge state (nor from any state at all) changes it, so
realized profit from `close_position` is never credited to the balance. -/
theorem C10_balance_constant (force : Bool) (st : MT5Bridge)
    (ops : List SimOp) (accountMode : String) :
    (get_account_info (applyOps force st ops) accountMode).balance = 10000 ∧
    (get_account_info (applyOps force bridgeInit0 ops) accountMode).balance
      = 10000 :=
  ⟨rfl, rfl⟩

/-- A candle sequence is chained when each candle opens at the previous
close. -/
inductive Chained : List Candle → Prop
  | nil : Chained []
  | single (c : Candle) : Chained [c]
  | cons (a b : Candle) (rest : List Candle) (hab : b.«open» = a.close)
      (h : Chained (b :: rest)) : Chained (a :: b :: rest)

lemma chained_get {cs : List Candle} (hc : Chained cs) :
    ∀ i (h : i + 1 < cs.length),
      (cs.get ⟨i + 1, h⟩).«open» = (cs.get ⟨i, Nat.lt_of_succ_lt h⟩).close := by
  induction hc with
  | nil => intro i h; simp at h
  | single c => intro i h; simp at h
  | cons a b rest hab h ih =>
    intro i hi
    match i with
    | 0 => simpa using hab
    | i + 1 => simpa using ih i (by simpa using hi)

/-- The walk invariant of `_simulate_candles`: the produced candle list is
chained, its first candle opens at the rounded running price, its last
close is the final running price, and the final running price is a fixed
point of `round2` (so a later call chains onto it exactly). -/
lemma simLoop_spec (noise : CandleNoise) (now tf : ℤ) (count : ℕ) :
    ∀ (rem i : ℕ) (price : ℚ),
      Chained (simLoop noise now tf count i rem price).1 ∧
      ((simLoop noise now tf count i rem price).1 = [] ∧
          (simLoop noise now tf count i rem price).2 = price ∨
        ((simLoop noise now tf count i rem price).1.head?.map Candle.«open»
            = some (round2 price) ∧
         (simLoop noise now tf count i rem price).1.getLast?.map Candle.close
            = some (simLoop noise now tf count i rem price).2 ∧
         round2 (simLoop noise now tf count i rem price).2
            = (simLoop noise now tf count i rem price).2)) := by
  intro rem
  induction rem with
  | zero => exact fun i price => ⟨Chained.nil, Or.inl ⟨rfl, rfl⟩⟩
  | succ rem ih =>
    intro i price
    obtain ⟨ihc, ihd⟩ := ih (i + 1) (round2 (price + noise.change i))
    rcases hl : (simLoop noise now tf count (i + 1) rem
        (round2 (price + noise.change i))).1 with _ | ⟨b, t⟩
    · rcases ihd with ⟨-, hfin⟩ | ⟨hhead, -, -⟩
      · refine ⟨?_, Or.inr ⟨?_, ?_, ?_⟩⟩ <;>
          simp [simLoop, hl, hfin, Chained.single, round2_idem]
      · rw [hl] at hhead; simp at hhead
    · rcases ihd with ⟨hnil, -⟩ | ⟨hhead, hlast, hfix⟩
      · rw [hl] at hnil; simp at hnil
      · rw [hl] at hhead hlast
        simp only [List.head?_cons, Option.map_some] at hhead
        have hb : b.«open» = round2 (price + noise.change i) := by
          have := Option.some.inj hhead
          rw [this, round2_idem]
        refine ⟨?_, Or.inr ⟨?_, ?_, hfix⟩⟩
        · simp only [simLoop, hl]
          exact Chained.cons _ _ _ hb (hl ▸ ihc)
        · simp [simLoop]
        · simp only [simLoop, hl, List.getLast?_cons_cons]
          simpa using hlast

/-- C6: every candle list produced by `_simulate_candles` is continuously
chained (`candle[i].open = candle[i-1].close` for `i > 0`), and because
the running price is written back into `_sim_base_price`, the first
candle of a subsequent call opens at the last close of the previous
call. -/
theorem C6_candle_chain (st : MT5Bridge) (noise noise2 : CandleNoise)
    (now now2 : ℤ) (count count2 : ℕ) (tf tf2 : String) :
    (∀ i (h : i + 1 < (simulate_candles st noise now count tf).2.length),
      ((simulate_candles st noise now count tf).2.get ⟨i + 1, h⟩).«open»
        = ((simulate_candles st noise now count tf).2.get
            ⟨i, Nat.lt_of_succ_lt h⟩).close) ∧
    ((simulate_candles st noise now count tf).2 ≠ [] →
      (simulate_candles (simulate_candles st noise now count tf).1
          noise2 now2 count2 tf2).2 ≠ [] →
      (simulate_candles (simulate_candles st noise now count tf).1
          noise2 now2 count2 tf2).2.head?.map Candle.«open»
        = (simulate_candles st noise now count tf).2.getLast?.map
            Candle.close) := by
  obtain ⟨hc1, hd1⟩ := simLoop_spec noise now (tf_minutes tf) count count 0
    st.sim_base_price
  constructor
  · intro i h
    exact chained_get hc1 i h
  · intro h1 h2
    rcases hd1 with ⟨hnil, -⟩ | ⟨-, hlast, hfix⟩
    · exact absurd hnil h1
    · obtain ⟨-, hd2⟩ := simLoop_spec noise2 now2 (tf_minutes tf2) count2
        count2 0 (simulate_candles st noise now count tf).1.sim_base_price
      rcases hd2 with ⟨hnil2, -⟩ | ⟨hhead2, -, -⟩
      · exact absurd hnil2 h2
      · show (simLoop noise2 now2 (tf_minutes tf2) count2 0 count2
            (simulate_candles st noise now count tf).1.sim_base_price).1.head?.map
              Candle.«open»
          = (simLoop noise now (tf_minutes tf) count 0 count
              st.sim_base_price).1.getLast?.map Candle.close
        rw [hhead2, hlast]
        have hbase : (simulate_candles st noise now count tf).1.sim_base_price
            = (simLoop noise now (tf_minutes tf) count 0 count
                st.sim_base_price).2 := rfl
        rw [hbase, hfix]

/-- A fixed noise stream for exercising the candle generator on concrete
inputs: every walk step is +1, wicks are 0, volume 100. -/
def cnW : CandleNoise := ⟨fun _ => 1, fun _ => 0, fun _ => 0, fun _ => 100⟩

lemma tfM5 : tf_minutes "M5" = 5 := rfl

lemma cnW_run1 : (simulate_candles bridgeInit0 cnW 0 2 "M5").2
    = [⟨-600, 2650, 2651, 2650, 2651, 100⟩,
       ⟨-300, 2651, 2652, 2651, 2652, 100⟩] := by
  norm_num [simulate_candles, simLoop, cnW, bridgeInit0, tfM5, round2,
    max_def, min_def]

lemma cnW_run2 :
    (simulate_candles (simulate_candles bridgeInit0 cnW 0 2 "M5").1
        cnW 0 1 "M5").2
    = [⟨-300, 2652, 2653, 2652, 2653, 100⟩] := by
  norm_num [simulate_candles, simLoop, cnW, bridgeInit0, tfM5, round2,
    max_def, min_def]

theorem C6_witness :
    1 < (simulate_candles bridgeInit0 cnW 0 2 "M5").2.length ∧
    ((simulate_candles bridgeInit0 cnW 0 2 "M5").2.get
        ⟨1, by simp [cnW_run1]⟩).«open»
      = ((simulate_candles bridgeInit0 cnW 0 2 "M5").2.get
          ⟨0, by simp [cnW_run1]⟩).close ∧
    (simulate_candles bridgeInit0 cnW 0 2 "M5").2 ≠ [] ∧
    (simulate_candles (simulate_candles bridgeInit0 cnW 0 2 "M5").1
        cnW 0 1 "M5").2 ≠ [] ∧
    (simulate_candles (simulate_candles bridgeInit0 cnW 0 2 "M5").1
        cnW 0 1 "M5").2.head?.map Candle.«open»
      = (simulate_candles bridgeInit0 cnW 0 2 "M5").2.getLast?.map
          Candle.close := by
  have h := C6_candle_chain bridgeInit0 cnW cnW 0 0 2 1 "M5" "M5"
  exact ⟨by simp [cnW_run1], h.1 0 (by simp [cnW_run1]), by simp [cnW_run1],
    by simp [cnW_run2], h.2 (by simp [cnW_run1]) (by simp [cnW_run2])⟩

lemma broadcastSends_fst {α : Type} (fails : α → Bool) :
    ∀ l : List α, (broadcastSends fails l).1 = l.filter (fun c => !(fails c)) := by
  intro l
  induction l with
  | nil => rfl
  | cons a t ih =>
    simp only [broadcastSends, List.filter_cons]
    cases h : fails a <;> simp [h, ih]

lemma broadcastSends_snd {α : Type} (fails : α → Bool) :
    ∀ l : List α, (broadcastSends fails l).2 = l.filter fails := by
  intro l
  induction l with
  | nil => rfl
  | cons a t ih =>
    simp only [broadcastSends, List.filter_cons]
    cases h : fails a <;> simp [h, ih]

lemma foldl_erase_of_not_mem {α : Type} [DecidableEq α] (a : α) :
    ∀ (d l : List α), a ∉ d →
      d.foldl disconnectConn (a :: l) = a :: d.foldl disconnectConn l := by
  intro d
  induction d with
  | nil => intro l _; rfl
  | cons c d ih =>
    intro l ha
    have hac : ¬(a == c) := by
      simp only [beq_iff_eq]
      exact fun h => ha (h ▸ List.mem_cons_self c d)
    have had : a ∉ d := fun h => ha (List.mem_cons_of_mem c h)
    simp only [List.foldl_cons, disconnectConn,
      List.erase_cons_tail hac]
    exact ih (l.erase c) had

/-- Erasing, from a duplicate-free registry, exactly the members picked
out by `q` leaves the members rejected by `q`. -/
lemma foldl_erase_filter {α : Type} [DecidableEq α] :
    ∀ (l : List α) (q : α → Bool), l.Nodup →
      (l.filter q).foldl disconnectConn l = l.filter (fun a => !(q a)) := by
  intro l
  induction l with
  | nil => intro q _; rfl
  | cons a t ih =>
    intro q hnd
    rw [List.nodup_cons] at hnd
    have hat : a ∉ t.filter q := fun h => hnd.1 (List.mem_of_mem_filter h)
    cases h : q a with
    | true =>
      rw [List.filter_cons_of_pos h, List.foldl_cons]
      have : disconnectConn (a :: t) a = t := List.erase_cons_head a t
      rw [this, ih q hnd.2, List.filter_cons_of_neg (by simp [h])]
    | false =>
      rw [List.filter_cons_of_neg (by simp [h]),
        foldl_erase_of_not_mem a (t.filter q) t hat, ih q hnd.2,
        List.filter_cons_of_pos (by simp [h])]

/-- C8: a broadcast over a duplicate-free observer registry delivers the
message to every non-failing observer, deregisters exactly the failing
ones after the send loop, and — every send being wrapped in its own
`try/except` and `broadcast` being a total function — raises nothing to
the caller. -/
theorem C8_broadcast {α : Type} [DecidableEq α] (active : List α)
    (fails : α → Bool) (hnd : active.Nodup) :
    (broadcast active fails).2 = active.filter (fun c => !(fails c)) ∧
    (broadcast active fails).1 = active.filter (fun c => !(fails c)) ∧
    (∀ c ∈ active, fails c = true → c ∉ (broadcast active fails).1) ∧
    (∀ c ∈ active, fails c = false → c ∈ (broadcast active fails).2) := by
  have h2 : (broadcast active fails).2
      = active.filter (fun c => !(fails c)) := broadcastSends_fst fails active
  have h1 : (broadcast active fails).1
      = active.filter (fun c => !(fails c)) := by
    show (broadcastSends fails active).2.foldl disconnectConn active = _
    rw [broadcastSends_snd, foldl_erase_filter active fails hnd]
  refine ⟨h2, h1, ?_, ?_⟩
  · intro c hc hf
    rw [h1]
    simp [List.mem_filter, hf]
  · intro c hc hf
    rw [h2]
    simp [List.mem_filter, hc, hf]

theorem C8_witness :
    ([0, 1, 2] : List ℕ).Nodup ∧
    (broadcast [0, 1, 2] (fun c => c == 1)).2 = [0, 2] ∧
    (broadcast [0, 1, 2] (fun c => c == 1)).1 = [0, 2] ∧
    (1 : ℕ) ∉ (broadcast [0, 1, 2] (fun c => c == 1)).1 := by
  have h := C8_broadcast [0, 1, 2] (fun c => c == 1) (by decide)
  exact ⟨by decide, h.1.trans (by decide), h.2.1.trans (by decide),
    h.2.2.1 1 (by decide) (by decide)⟩

/-- C9: with the strict-mode flag set and the live data source
unavailable — whether the SDK is missing (simulation mode) or
`mt5.initialize` fails — the connect step returns an unsuccessful result
and the lifespan startup raises instead of starting; without strict mode
the bridge degrades to the synthetic source, reporting success with mode
`"simulation"`, and startup proceeds. -/
theorem C9_strict_mode (v liveErr : String) (st stL : MT5Bridge)
    (liveOk ln lo ad : Bool) (al : ℤ) :
    (st.simulation_mode = true → strictMode v = true →
      (bridgeConnect st v liveOk liveErr ln lo ad al).2.success = false ∧
      exceptOk (lifespanStartup
        (bridgeConnect st v liveOk liveErr ln lo ad al).2 v) = false) ∧
    (stL.simulation_mode = false → strictMode v = true →
      (bridgeConnect stL v false liveErr ln lo ad al).2.success = false ∧
      exceptOk (lifespanStartup
        (bridgeConnect stL v false liveErr ln lo ad al).2 v) = false) ∧
    (st.simulation_mode = true → strictMode v = false →
      (bridgeConnect st v liveOk liveErr ln lo ad al).2.success = true ∧
      (bridgeConnect st v liveOk liveErr ln lo ad al).2.mode
        = some "simulation" ∧
      exceptOk (lifespanStartup
        (bridgeConnect st v liveOk liveErr ln lo ad al).2 v) = true) := by
  refine ⟨fun hs hf => ?_, fun hs hf => ?_, fun hs hf => ?_⟩ <;>
    simp [bridgeConnect, lifespanStartup, exceptOk, hs, hf]

theorem C9_witness :
    bridgeInit0.simulation_mode = true ∧
    strictMode "true" = true ∧
    strictMode "false" = false ∧
    ((bridgeConnect bridgeInit0 "true" false "err" false false true 0).2.success
        = false ∧
      exceptOk (lifespanStartup
        (bridgeConnect bridgeInit0 "true" false "err" false false true 0).2
        "true") = false) ∧
    ((bridgeConnect bridgeInit0 "false" false "err" false false true 0).2.success
        = true ∧
      (bridgeConnect bridgeInit0 "false" false "err" false false true 0).2.mode
        = some "simulation" ∧
      exceptOk (lifespanStartup
        (bridgeConnect bridgeInit0 "false" false "err" false false true 0).2
        "false") = true) :=
  ⟨rfl, by decide, by decide,
   (C9_strict_mode "true" "err" bridgeInit0 bridgeInit0 false false false true
      0).1 rfl (by decide),
   (C9_strict_mode "false" "err" bridgeInit0 bridgeInit0 false false false true
      0).2.2 rfl (by decide)⟩

end GeminiTrader
